import Mathlib

/-
Shallow embedding of the EC2 Deployer backend (src/backend/app):
the deployment data model (models.py), the deploy / sync / terminate
workflows (main.py) and the security-group helper (aws.py).

The database session is modelled as an explicit store of rows; each
workflow is a pure function from the store, the provider's answers for
the calls the workflow would issue, and the clock readings, to an
outcome carrying the HTTP-level result, the store after the workflow,
and the number of provider calls issued.  Timestamps are naturals.  A
raised exception that FastAPI turns into an HTTP error is an
`Except.error` carrying the status code and a modelled detail string.

Two facts of the source shape the control flow:
- main.py line 10 imports the ORM `Deployment` from models.py, but
  line 11 immediately rebinds the name to schemas.Deployment, the
  pydantic response model.  Everywhere in main.py, `Deployment` is the
  pydantic class: constructing it at line 61 with five required fields
  missing raises ValidationError before anything is persisted, and
  `select(Deployment)` in the sync and terminate handlers raises
  because the pydantic class is not a mapped entity, before any row is
  loaded or any provider client is built.  Both exceptions occur
  inside the `try` blocks and re-surface as HTTP 500 through the
  blanket `except Exception` handlers.
- The 404 `HTTPException`s raised inside those same `try` blocks would
  likewise be caught by the blanket handlers and re-raised as 500, but
  the select failure above means those raises are dead code.
The embedding keeps the dead branches as the source text spells them
out, guarded by explicit boolean facts of the source
(`pydanticValidate ...` for the constructor call, and
`deploymentNameIsMapped` for the select), so that reachability is a
proved property rather than an assumption.
-/

namespace EC2D

/-- A row of the `deployments` table (models.py `Deployment`). -/
structure DeploymentRec where
  id : Nat
  instance_id : Option String
  instance_name : String
  instance_type : String
  ami_id : String
  key_name : String
  status : String
  public_ip : Option String
  private_ip : Option String
  security_group_id : Option String
  vpc_id : Option String
  subnet_id : Option String
  az : Option String
  launch_time : Nat
  created_at : Nat
  updated_at : Nat
deriving Repr, DecidableEq

/-- The persistent store: the committed rows plus the next surrogate id
the database will assign. -/
structure Store where
  rows : List DeploymentRec
  nextId : Nat
deriving Repr, DecidableEq

/-- `select(Deployment).where(Deployment.id == i)` + `scalar_one_or_none()`. -/
def getRecord (s : Store) (i : Nat) : Option DeploymentRec :=
  s.rows.find? (fun r => r.id = i)

/-- `db.add(rec)` followed by `commit`: the database assigns the next id
to the new row. The caller builds `r` with `r.id = s.nextId`. -/
def insertRow (s : Store) (r : DeploymentRec) : Store :=
  ⟨s.rows ++ [r], s.nextId + 1⟩

/-- Committing mutations of a loaded row: the row with the same id is
replaced by the mutated version. -/
def updateRow (s : Store) (r : DeploymentRec) : Store :=
  ⟨s.rows.map (fun x => if x.id = r.id then r else x), s.nextId⟩

/-- Well-formed store: every committed row's id is below the next id the
database will assign. -/
def StoreWF (s : Store) : Prop :=
  ∀ r ∈ s.rows, r.id < s.nextId

instance (s : Store) : Decidable (StoreWF s) := by
  unfold StoreWF; infer_instance

/-- An HTTP error as FastAPI surfaces it: status code and detail string. -/
structure HttpError where
  code : Nat
  detail : String
deriving Repr, DecidableEq

/-- The status code the caller observes from a workflow result (200 on
success). -/
def resultCode {α : Type} : Except HttpError α → Nat
  | .error e => e.code
  | .ok _ => 200

/-- The fields of schemas.Deployment that have no default value:
pydantic requires every one of them at construction. -/
def deploymentSchemaRequired : List String :=
  ["instance_name", "instance_type", "ami_id", "key_name",
   "id", "instance_id", "status", "launch_time", "created_at", "updated_at"]

/-- The keyword arguments main.py lines 61-68 pass to `Deployment(...)`. -/
def deployCtorKwargs : List String :=
  ["instance_name", "instance_type", "ami_id", "key_name",
   "status", "security_group_id"]

/-- Pydantic construction succeeds exactly when every required field is
among the provided keyword arguments. -/
def pydanticValidate (required provided : List String) : Bool :=
  required.all (fun f => provided.contains f)

/-- Whether the name `Deployment` in main.py denotes a SQLAlchemy
mapped class that `select(...)` accepts.  It does not: the schemas
binding from line 11 shadows the models one from line 10, so the name
denotes the pydantic response schema and `select(Deployment)` raises. -/
def deploymentNameIsMapped : Bool := false

/-- models.py line 11 declares the instance_id column `nullable=False`:
even with the shadowing fixed, committing a row with no instance id
would violate this constraint. -/
def instanceIdColumnNullable : Bool := false

/-- Modelled detail string of the 500 surfaced when `select(Deployment)`
rejects the shadowed pydantic class. -/
def selectOnSchemaDetail : String :=
  "ArgumentError: Deployment is not a mapped class"

/-- Modelled detail string of the 500 surfaced when constructing the
shadowed pydantic Deployment with its five required fields (id,
instance_id, launch_time, created_at, updated_at) missing. -/
def deployValidationDetail : String :=
  "ValidationError: 5 validation errors for Deployment"

/-- Body of POST /api/deploy (schemas.py `DeploymentCreate`). -/
structure DeployArgs where
  instance_name : String
  instance_type : String
  ami_id : String
  key_name : String
deriving Repr, DecidableEq

/-- The dict for `response['Instances'][0]` of `run_instances`: the
provider-assigned id plus the optional fields main.py reads.
`placement` is the optional `Placement` dict, whose value is the
optional `AvailabilityZone` entry. -/
structure ProviderInstance where
  instanceId : String
  launchTime : Option Nat
  publicIp : Option String
  privateIp : Option String
  subnetId : Option String
  vpcId : Option String
  placement : Option (Option String)
deriving Repr, DecidableEq

/-- Fields of `describe_instances` that sync_deployment reads from
`Reservations[0].Instances[0]`. -/
structure DescribeInst where
  state : String
  publicIp : Option String
  privateIp : Option String
deriving Repr, DecidableEq

/-- Body of the 200 response of POST /api/deploy
(schemas.py `DeploymentResponse`). -/
structure DeployResponse where
  success : Bool
  instance_id : String
  deployment_id : Nat
  message : String
deriving Repr, DecidableEq

/-- The row the text of main.py lines 60-72 describes for the ORM
class: status pending, the security-group id from the helper, no
instance id; the column defaults stamp `launch_time`, `created_at` and
`updated_at` with the clock.  In the real program this construction is
never completed — `Deployment` there is the shadowed pydantic schema,
whose validation fails (see `deploy_instance`) — and committing it
would violate the `nullable=False` instance_id column anyway. -/
def pending_record (args : DeployArgs) (sgId : String) (i t1 : Nat) : DeploymentRec :=
  { id := i
    instance_id := none
    instance_name := args.instance_name
    instance_type := args.instance_type
    ami_id := args.ami_id
    key_name := args.key_name
    status := "pending"
    public_ip := none
    private_ip := none
    security_group_id := some sgId
    vpc_id := none
    subnet_id := none
    az := none
    launch_time := t1
    created_at := t1
    updated_at := t1 }

/-- The mutations deploy_instance applies to the pending row after a
successful `run_instances`: `instance_id` and `launch_time` (provider
value, else current time `t2`), then each optional field only when the
provider response carries it, then `status = "running"`; the second
commit refreshes `updated_at`. -/
def merged_record (rec : DeploymentRec) (inst : ProviderInstance) (t2 : Nat) : DeploymentRec :=
  let r1 := { rec with
    instance_id := some inst.instanceId
    launch_time := inst.launchTime.getD t2 }
  let r2 := match inst.publicIp with
    | some p => { r1 with public_ip := some p }
    | none => r1
  let r3 := match inst.privateIp with
    | some p => { r2 with private_ip := some p }
    | none => r2
  let r4 := match inst.subnetId with
    | some p => { r3 with subnet_id := some p }
    | none => r3
  let r5 := match inst.vpcId with
    | some p => { r4 with vpc_id := some p }
    | none => r4
  let r6 := match inst.placement with
    | some a => { r5 with az := a }
    | none => r5
  { r6 with status := "running", updated_at := t2 }

/-- Outcome of POST /api/deploy: the HTTP-level result and the store
after the request. -/
structure DeployOutcome where
  result : Except HttpError DeployResponse
  store : Store
deriving Repr

/-- main.py `deploy_instance`: the awaited `create_security_group`
call (whose exception, if any, jumps to the handler), then the
`Deployment(...)` construction at line 61.  Because the name is the
shadowed pydantic schema, the construction validates its keyword
arguments against the schema's required fields and raises
ValidationError — five required fields are missing — so the handler
rolls back the untouched session and surfaces HTTP 500 with nothing
persisted and `run_instances` never called.  The guarded branch keeps
the text of lines 62-117 as written for the ORM class (commit of the
pending row, launch, merge of the provider response, second commit);
it is dead, as the validation provably fails. -/
def deploy_instance (args : DeployArgs) (store : Store)
    (sgResult : Except String String)
    (launchResult : Except String ProviderInstance) (t1 t2 : Nat) : DeployOutcome :=
  match sgResult with
  | .error msg => ⟨.error ⟨500, msg⟩, store⟩
  | .ok sgId =>
    if pydanticValidate deploymentSchemaRequired deployCtorKwargs then
      let rec0 := pending_record args sgId store.nextId t1
      let store1 := insertRow store rec0
      match launchResult with
      | .error msg => ⟨.error ⟨500, msg⟩, store1⟩
      | .ok inst =>
        let rec2 := merged_record rec0 inst t2
        ⟨.ok
          { success := true
            instance_id := inst.instanceId
            deployment_id := rec0.id
            message := "Instance " ++ inst.instanceId ++ " launched successfully!" },
          updateRow store1 rec2⟩
    else
      ⟨.error ⟨500, deployValidationDetail⟩, store⟩

/-- The mutations sync_deployment applies to a loaded row when the
provider reports an instance: `status` is overwritten with the provider
state name, `public_ip` / `private_ip` only when the response carries
them; the commit refreshes `updated_at`. -/
def synced_record (d : DeploymentRec) (inst : DescribeInst) (now : Nat) : DeploymentRec :=
  let d1 := { d with status := inst.state }
  let d2 := match inst.publicIp with
    | some p => { d1 with public_ip := some p }
    | none => d1
  let d3 := match inst.privateIp with
    | some p => { d2 with private_ip := some p }
    | none => d2
  { d3 with updated_at := now }

/-- Outcome of POST /api/deployments/:id/sync: HTTP-level result, store
after the request, and how many `describe_instances` calls were issued. -/
structure SyncOutcome where
  result : Except HttpError DeploymentRec
  store : Store
  describeCalls : Nat
deriving Repr

/-- main.py `sync_deployment`: the first statement of the `try` block,
`select(Deployment).where(Deployment.id == deployment_id)`, raises on
the shadowed pydantic class, so every call — whatever the id, whatever
the stored statuses — surfaces HTTP 500 with the store unchanged and
zero `describe_instances` calls issued.  The guarded branch keeps the
text of lines 163-190 as written for the ORM class: load the row (the
404 raised when absent would be swallowed into a 500 by the blanket
handler), call `describe_instances` on its instance id
unconditionally, and either merge the reported instance and commit, or
raise a 404 (again swallowed into 500) when the provider reports no
matching instance.  That branch is dead: `deploymentNameIsMapped` is
false. -/
def sync_deployment (store : Store) (describe : Option String → Option DescribeInst)
    (now : Nat) (deployment_id : Nat) : SyncOutcome :=
  if deploymentNameIsMapped then
    match getRecord store deployment_id with
    | none => ⟨.error ⟨500, "404: Deployment not found"⟩, store, 0⟩
    | some deployment =>
      match describe deployment.instance_id with
      | some inst =>
        let d2 := synced_record deployment inst now
        ⟨.ok d2, updateRow store d2, 1⟩
      | none => ⟨.error ⟨500, "404: Instance not found in AWS"⟩, store, 1⟩
  else
    ⟨.error ⟨500, selectOnSchemaDetail⟩, store, 0⟩

/-- Outcome of DELETE /api/deployments/:id: HTTP-level result (the 200
body is the success flag and message), store after the request, and how
many `terminate_instances` calls were issued. -/
structure TermOutcome where
  result : Except HttpError (Bool × String)
  store : Store
  terminateCalls : Nat
deriving Repr

/-- main.py `terminate_deployment`: the first statement of the `try`
block, `select(Deployment).where(Deployment.id == deployment_id)`,
raises on the shadowed pydantic class, so every call surfaces HTTP 500
with the store unchanged and zero `terminate_instances` calls issued.
The guarded branch keeps the text of lines 202-218 as written for the
ORM class: load the row (the 404 raised when absent would be swallowed
into a 500 by the blanket handler, with no provider call), call
`terminate_instances` (`term` is the provider's answer; an exception
rolls back and surfaces 500), then set `status = "terminating"` and
commit.  That branch is dead: `deploymentNameIsMapped` is false. -/
def terminate_deployment (store : Store) (term : Option String → Except String Unit)
    (now : Nat) (deployment_id : Nat) : TermOutcome :=
  if deploymentNameIsMapped then
    match getRecord store deployment_id with
    | none => ⟨.error ⟨500, "404: Deployment not found"⟩, store, 0⟩
    | some deployment =>
      match term deployment.instance_id with
      | .error msg => ⟨.error ⟨500, msg⟩, store, 1⟩
      | .ok _ =>
        let d2 := { deployment with status := "terminating", updated_at := now }
        ⟨.ok (true, "Instance termination initiated"), updateRow store d2, 1⟩
  else
    ⟨.error ⟨500, selectOnSchemaDetail⟩, store, 0⟩

/-- A provider-side security group as aws.py reads and creates it:
`GroupName`, `GroupId`, the `VpcId` passed at creation, and the ingress
ports opened on it. -/
structure SecGroup where
  groupName : String
  groupId : String
  vpcId : Option String
  ingressPorts : List Nat
deriving Repr, DecidableEq

/-- Provider-side EC2 state as aws.py `create_security_group` touches
it: the existing security groups, the VPC list `describe_vpcs` returns,
a counter from which the provider mints fresh group ids, and whether
`describe_security_groups` raises a `ClientError`. -/
structure EC2State where
  groups : List SecGroup
  vpcs : List String
  nextSgNum : Nat
  describeFails : Bool
deriving Repr, DecidableEq

/-- The fresh group id the provider assigns to the next created group. -/
def freshGroupId (s : EC2State) : String :=
  "sgid-" ++ toString s.nextSgNum

/-- `describe_security_groups(Filters=[group-name = name])`: `none` when
the call raises a `ClientError`, otherwise the groups whose name
matches the filter. -/
def describe_security_groups (s : EC2State) (name : String) : Option (List SecGroup) :=
  if s.describeFails then none
  else some (s.groups.filter (fun g => g.groupName = name))

/-- aws.py `create_security_group`: look up groups by name — a
`ClientError` from the lookup is suppressed by `except ClientError:
pass` — and return the first match's id if any; otherwise take the
first VPC of `describe_vpcs` (or None), create a group with a fresh
provider id, authorize ingress on ports 22, 80 and 443 from anywhere,
and return the new id.  Result: the returned group id and the provider
state after the call. -/
def create_security_group (s : EC2State) (group_name : String) : String × EC2State :=
  let createNew : String × EC2State :=
    let vpc_id := s.vpcs.head?
    let gid := freshGroupId s
    let newG : SecGroup := ⟨group_name, gid, vpc_id, [22, 80, 443]⟩
    (gid, { s with groups := s.groups ++ [newG], nextSgNum := s.nextSgNum + 1 })
  match describe_security_groups s group_name with
  | some (g :: _) => (g.groupId, s)
  | some [] => createNew
  | none => createNew

/-! ### Sample inputs -/

/-- The deploy request of the spec's worked scenario. -/
def sampleArgs : DeployArgs := ⟨"web-1", "t3.micro", "ami-123", "k1"⟩

/-- Provider launch response of the spec's worked scenario: id `i-abc`,
no optional fields reported. -/
def sampleInst : ProviderInstance := ⟨"i-abc", none, none, none, none, none, none⟩

/-! ### Claims -/

/-- Claim C4 (code bug): no pending record is ever persisted.  The
`Deployment(...)` construction after the security-group step is the
shadowed pydantic schema, whose required fields (instance_id among
them) are not all provided, so pydantic validation fails and the deploy
surfaces HTTP 500 with the store untouched — evaluated here at a
concrete create with a successful security-group step.  Independently,
the instance_id column is declared nullable=False while the intended
pending row carries no instance id, so the commit the claim describes
would fail even with the shadowing fixed. -/
theorem deploy_never_persists_pending :
    "instance_id" ∈ deploymentSchemaRequired ∧
    "instance_id" ∉ deployCtorKwargs ∧
    pydanticValidate deploymentSchemaRequired deployCtorKwargs = false ∧
    deploy_instance sampleArgs ⟨[], 1⟩ (.ok "sg-1") (.ok sampleInst) 0 1 =
      ⟨.error ⟨500, deployValidationDetail⟩, ⟨[], 1⟩⟩ ∧
    getRecord (deploy_instance sampleArgs ⟨[], 1⟩ (.ok "sg-1") (.ok sampleInst) 0 1).store
      1 = none ∧
    instanceIdColumnNullable = false ∧
    (pending_record sampleArgs "sg-1" 1 0).instance_id = none :=
  ⟨by decide, by decide, rfl, rfl, rfl, rfl, rfl⟩

/-- Claim C5 (confirmed): when the security-group step fails, nothing
has been written yet, so the store is unchanged and the provisioning
failure surfaces to the caller as HTTP 500 with the provider's message. -/
theorem deploy_sg_failure_leaves_store_unchanged (args : DeployArgs) (store : Store)
    (msg : String) (launchResult : Except String ProviderInstance) (t1 t2 : Nat) :
    deploy_instance args store (.error msg) launchResult t1 t2 =
      ⟨.error ⟨500, msg⟩, store⟩ :=
  rfl

/-- Claim C1 (code bug): the claim's launch-failure scenario is
unreachable.  On a concrete create whose security-group step succeeds
and whose launch would fail, the workflow never reaches the launch: the
pydantic validation of the shadowed Deployment fails first, the deploy
surfaces HTTP 500, the store is left untouched, and no record — with
status "failed" or any other — exists afterwards. -/
theorem deploy_launch_failure_scenario_unreachable :
    pydanticValidate deploymentSchemaRequired deployCtorKwargs = false ∧
    deploy_instance sampleArgs ⟨[], 1⟩ (.ok "sg-1") (.error "boom") 0 1 =
      ⟨.error ⟨500, deployValidationDetail⟩, ⟨[], 1⟩⟩ ∧
    getRecord (deploy_instance sampleArgs ⟨[], 1⟩ (.ok "sg-1") (.error "boom") 0 1).store
      1 = none :=
  ⟨rfl, rfl, rfl⟩

/-- Claim C7 (code bug): the fully successful create path is
unreachable.  At the spec's worked scenario — request web-1 / t3.micro
/ ami-123 / k1, provider ready with rule set sg-1 and instance i-abc —
the deploy fails at the pydantic construction of the shadowed
Deployment with HTTP 500, the launch is never issued, and no record
with status "running" ever exists in the store. -/
theorem deploy_success_path_unreachable :
    pydanticValidate deploymentSchemaRequired deployCtorKwargs = false ∧
    resultCode (deploy_instance sampleArgs ⟨[], 1⟩ (.ok "sg-1") (.ok sampleInst) 0 1).result
      = 500 ∧
    ((getRecord (deploy_instance sampleArgs ⟨[], 1⟩ (.ok "sg-1") (.ok sampleInst) 0 1).store
      1).map (fun r => r.status)) ≠ some "running" :=
  ⟨rfl, rfl, by decide⟩

/-- A terminated deployment row: terminal status per the spec's state
machine. -/
def sampleTerminatedRec : DeploymentRec :=
  { id := 1
    instance_id := some "i-abc"
    instance_name := "web-1"
    instance_type := "t3.micro"
    ami_id := "ami-123"
    key_name := "k1"
    status := "terminated"
    public_ip := none
    private_ip := none
    security_group_id := some "sg-1"
    vpc_id := none
    subnet_id := none
    az := none
    launch_time := 0
    created_at := 0
    updated_at := 0 }

/-- A running (non-terminal) deployment row. -/
def sampleRunningRec : DeploymentRec :=
  { sampleTerminatedRec with status := "running" }

/-- A provider that reports the instance running with a public IP. -/
def sampleDescribe : Option String → Option DescribeInst :=
  fun _ => some ⟨"running", some "9.9.9.9", none⟩

/-- A provider with no record of any instance id. -/
def sampleDescribeNone : Option String → Option DescribeInst :=
  fun _ => none

/-- A provider whose terminate call succeeds. -/
def sampleTermF : Option String → Except String Unit :=
  fun _ => .ok ()

/-- Claim C2 counterexample: sync on a stored deployment whose status is
the terminal "terminated" does not return the record unchanged — it
fails with HTTP 500 (the select raises on the shadowed pydantic class),
so "record returned equals record before the call" is false at this
concrete input. -/
theorem sync_terminal_returns_error :
    (sync_deployment ⟨[sampleTerminatedRec], 2⟩ sampleDescribe 5 1).result =
      .error ⟨500, selectOnSchemaDetail⟩ ∧
    (sync_deployment ⟨[sampleTerminatedRec], 2⟩ sampleDescribe 5 1).result ≠
      .ok sampleTerminatedRec := by
  refine ⟨rfl, ?_⟩
  intro h
  exact Except.noConfusion h

/-- Claim C2 (amended): sync on a terminal-status deployment issues no
provider call and leaves the record unchanged, but it does not return
the record: like every sync call — terminal or not, stored id or not —
it fails with HTTP 500, because `select(Deployment)` raises on the
shadowed pydantic class before the row is loaded or the provider client
is built. -/
theorem sync_always_fails_500 (store : Store)
    (describe : Option String → Option DescribeInst) (now i : Nat) :
    sync_deployment store describe now i =
      ⟨.error ⟨500, selectOnSchemaDetail⟩, store, 0⟩ :=
  rfl

/-- Claim C3 (code bug): terminate on an unknown id issues no provider
call, as the claim says — but the caller observes HTTP 500, not 404: at
runtime the select on the shadowed pydantic class raises before the
not-found check, and even the 404 HTTPException that check would raise
would be swallowed into a 500 by the blanket handler. -/
theorem terminate_unknown_id_surfaces_500 :
    (terminate_deployment ⟨[], 1⟩ sampleTermF 0 7).terminateCalls = 0 ∧
    resultCode (terminate_deployment ⟨[], 1⟩ sampleTermF 0 7).result = 500 ∧
    (500 : Nat) ≠ 404 :=
  ⟨rfl, rfl, by decide⟩

/-- Claim C6 (code bug): sync on a stored running deployment whose
instance the provider has no record of leaves the store unchanged, as
the claim says — but the caller observes HTTP 500, not 404, and the
provider is never even consulted (zero describe calls): the select on
the shadowed pydantic class raises first, so the code's own 404 branch
for "Instance not found in AWS" is dead. -/
theorem sync_provider_missing_branch_dead_500 :
    resultCode (sync_deployment ⟨[sampleRunningRec], 2⟩ sampleDescribeNone 5 1).result = 500 ∧
    (500 : Nat) ≠ 404 ∧
    (sync_deployment ⟨[sampleRunningRec], 2⟩ sampleDescribeNone 5 1).store =
      ⟨[sampleRunningRec], 2⟩ ∧
    (sync_deployment ⟨[sampleRunningRec], 2⟩ sampleDescribeNone 5 1).describeCalls = 0 :=
  ⟨rfl, by decide, rfl, rfl⟩

/-- Claim C9 (code bug): the claim quantifies over successful sync
calls, and the program has none.  For every store, provider answer,
clock and id, the sync call fails (its result is never `Except.ok`) and
the store — hence every field of every stored record — is left
entirely unchanged: the select on the shadowed pydantic class raises
before the success branch whose frame the claim describes can run. -/
theorem sync_never_succeeds (store : Store)
    (describe : Option String → Option DescribeInst) (now i : Nat) :
    (∀ d : DeploymentRec, (sync_deployment store describe now i).result ≠ .ok d) ∧
    (sync_deployment store describe now i).store = store := by
  refine ⟨?_, rfl⟩
  intro d h
  exact Except.noConfusion h

/-- A provider whose describe-security-groups lookup raises ClientError. -/
def sampleSgErrState : EC2State := ⟨[], ["vpc-1"], 0, true⟩

/-- A provider whose describe-security-groups lookup works, with no
groups yet. -/
def sampleSgState : EC2State := ⟨[], ["vpc-1"], 0, false⟩

/-- Claim C8 counterexample: in a provider state where the name lookup
raises ClientError (which the code suppresses), a first call with name
sg-web-1 succeeds and creates a rule set, yet a second call with the
same name returns a different id and a second rule set with that name
exists afterwards. -/
theorem create_security_group_not_idempotent :
    (create_security_group sampleSgErrState "sg-web-1").1 = "sgid-0" ∧
    ((create_security_group sampleSgErrState "sg-web-1").2.groups.filter
      (fun g => g.groupName = "sg-web-1")).length = 1 ∧
    (create_security_group
      (create_security_group sampleSgErrState "sg-web-1").2 "sg-web-1").1 = "sgid-1" ∧
    ("sgid-1" : String) ≠ "sgid-0" ∧
    ((create_security_group
      (create_security_group sampleSgErrState "sg-web-1").2 "sg-web-1").2.groups.filter
      (fun g => g.groupName = "sg-web-1")).length = 2 := by
  refine ⟨by decide, by decide, by decide, by decide, by decide⟩

/-- Claim C8 (amended): provided the provider's name lookup succeeds (no
ClientError), a second call with the same name returns the same rule-set
id and leaves the provider state unchanged — no second rule set is
created. -/
theorem create_security_group_idempotent (s : EC2State) (n : String)
    (h : s.describeFails = false) :
    (create_security_group (create_security_group s n).2 n).1 =
      (create_security_group s n).1 ∧
    (create_security_group (create_security_group s n).2 n).2 =
      (create_security_group s n).2 := by
  cases hf : s.groups.filter (fun g => g.groupName = n) with
  | cons g tl =>
    simp [create_security_group, describe_security_groups, h, hf]
  | nil =>
    simp [create_security_group, describe_security_groups, h, hf, List.filter_append]

/-- Witness for the amended C8 theorem on an empty provider state with a
working lookup. -/
theorem create_security_group_idempotent_witness :
    sampleSgState.describeFails = false ∧
    (create_security_group (create_security_group sampleSgState "sg-b").2 "sg-b").1 =
      (create_security_group sampleSgState "sg-b").1 :=
  ⟨rfl, (create_security_group_idempotent sampleSgState "sg-b" rfl).1⟩

/-- Claim C10 (confirmed): when the describe-security-groups lookup
itself raises ClientError, create_security_group suppresses the error
and proceeds to create a new group with a fresh id instead of
propagating the lookup failure. -/
theorem create_security_group_suppresses_describe_error (s : EC2State) (n : String)
    (h : s.describeFails = true) :
    create_security_group s n =
      (freshGroupId s,
       { s with
         groups := s.groups ++ [⟨n, freshGroupId s, s.vpcs.head?, [22, 80, 443]⟩]
         nextSgNum := s.nextSgNum + 1 }) := by
  simp [create_security_group, describe_security_groups, h, freshGroupId]

/-- Witness for C10 on a provider state whose lookup raises ClientError. -/
theorem create_security_group_suppresses_describe_error_witness :
    sampleSgErrState.describeFails = true ∧
    create_security_group sampleSgErrState "sg-a" =
      (freshGroupId sampleSgErrState,
       { sampleSgErrState with
         groups := sampleSgErrState.groups ++
           [⟨"sg-a", freshGroupId sampleSgErrState, sampleSgErrState.vpcs.head?, [22, 80, 443]⟩]
         nextSgNum := sampleSgErrState.nextSgNum + 1 }) :=
  ⟨rfl, create_security_group_suppresses_describe_error sampleSgErrState "sg-a" rfl⟩

end EC2D
